import Mathlib

/-
Verification of the VL53L5 sensor-facade layer (src/src/VL53L5cx.cpp).

The facade wraps the vendor's low-level driver (ULD).  The driver itself,
the facade header and the platform layer are not under src/, so — following
the spec — the driver is modelled as an opaque collaborator: a record of
functions that consume and return an abstract device state together with a
status code and any out-parameters.  The facade code itself (validation,
sequencing, frame-buffer handling) is embedded faithfully from
src/src/VL53L5cx.cpp; every facade operation additionally records the
ordered list of driver/hardware calls it issues, and a call to
Debugger::reportForever (which halts the process permanently) is modelled
as a `fatal` outcome carrying the diagnostic format string and the trace of
calls issued before the halt.
-/

set_option linter.unusedVariables false

/-- Resolution enumeration of the facade configuration (declared in the
facade header outside src/; the constructor names are the ones used in
src/src/VL53L5cx.cpp). -/
inductive resolution_t where
  | RESOLUTION_4X4
  | RESOLUTION_8X8
deriving DecidableEq, Repr

/-- Target-order enumeration of the facade configuration. -/
inductive target_order_t where
  | TARGET_ORDER_STRONGEST
  | TARGET_ORDER_CLOSEST
deriving DecidableEq, Repr

/-- Modelled from the spec: numeric resolution code of the vendor header
(vl53l5cx_api.h, not under src/) for the 4x4 grid; only distinctness from
the 8x8 code matters to the facade. -/
def VL53L5CX_RESOLUTION_4X4 : Nat := 16

/-- Modelled from the spec: numeric resolution code for the 8x8 grid. -/
def VL53L5CX_RESOLUTION_8X8 : Nat := 64

/-- Modelled from the spec: vendor numeric code for strongest-first target
ordering. -/
def VL53L5CX_TARGET_ORDER_STRONGEST : Nat := 2

/-- Modelled from the spec: vendor numeric code for closest-first target
ordering. -/
def VL53L5CX_TARGET_ORDER_CLOSEST : Nat := 1

/-- Modelled from the spec: vendor numeric code for the autonomous ranging
mode. -/
def VL53L5CX_RANGING_MODE_AUTONOMOUS : Nat := 3

/-- Modelled from the spec: the ranging result frame (VL53L5CX_ResultsData
of the vendor header, not under src/).  The per-target and per-zone arrays
are modelled as total maps from the flat index used by the facade's
accessors to the stored value. -/
structure VL53L5CX_ResultsData where
  target_status : Nat → Nat
  distance_mm : Nat → Nat
  signal_per_spad : Nat → Nat
  range_sigma_mm : Nat → Nat
  nb_target_detected : Nat → Nat
  ambient_per_spad : Nat → Nat
  nb_spads_enabled : Nat → Nat

/-- Modelled from the spec: the vendor driver's device structure
(VL53L5CX_Configuration, not under src/).  The facade touches only the
platform address field (set at construction) and reads the streamcount
field (getStreamCount); everything else the driver keeps there is
abstracted into `internal`. -/
structure DevState where
  address : Nat
  streamcount : Nat
  internal : Nat
deriving DecidableEq, Repr

/-- Modelled from the spec: the vendor ULD as an opaque collaborator.  Each
operation takes its arguments and the current device state and returns a
status code, its out-parameters, and the (possibly updated) device state.
The facade passes `&_dev` to every driver call, so every call may update
the device state. -/
structure Driver where
  vl53l5cx_is_alive : DevState → Nat × Nat × DevState
  vl53l5cx_init : DevState → Nat × DevState
  vl53l5cx_set_resolution : Nat → DevState → Nat × DevState
  vl53l5cx_set_target_order : Nat → DevState → Nat × DevState
  vl53l5cx_start_ranging : DevState → Nat × DevState
  vl53l5cx_check_data_ready : DevState → Nat × Nat × DevState
  vl53l5cx_get_ranging_data : DevState → Nat × VL53L5CX_ResultsData × DevState
  vl53l5cx_stop_ranging : DevState → Nat × DevState
  vl53l5cx_get_integration_time_ms : DevState → Nat × Nat × DevState
  vl53l5cx_motion_indicator_init : Nat → DevState → Nat × Nat × DevState
  vl53l5cx_motion_indicator_set_distance_motion : Nat → Nat → Nat → DevState → Nat × DevState
  vl53l5cx_calibrate_xtalk : Nat → Nat → Nat → DevState → Nat × DevState
  vl53l5cx_get_caldata_xtalk : DevState → Nat × List Nat × DevState
  vl53l5cx_set_ranging_mode : Nat → DevState → Nat × DevState
  vl53l5cx_set_integration_time_ms : Nat → DevState → Nat × DevState

/-- One driver/hardware call issued by a facade operation, in program
order.  `resetSensor` is the hardware pin toggle (Reset_Sensor of the
platform layer); every other constructor is a call into the vendor
driver. -/
inductive Event where
  | resetSensor : Nat → Event
  | drvIsAlive : Event
  | drvInit : Event
  | drvSetResolution : Nat → Event
  | drvSetTargetOrder : Nat → Event
  | drvStartRanging : Event
  | drvCheckDataReady : Event
  | drvGetRangingData : Event
  | drvStopRanging : Event
  | drvGetIntegrationTime : Event
  | drvMotionIndicatorInit : Nat → Event
  | drvMotionIndicatorSetDistance : Nat → Nat → Event
  | drvCalibrateXtalk : Nat → Nat → Nat → Event
  | drvGetCaldataXtalk : Event
  | drvSetRangingMode : Nat → Event
  | drvSetIntegrationTime : Nat → Event
deriving DecidableEq, Repr

/-- Outcome of a facade operation: either normal completion with a result
value, the updated facade state and the trace of calls issued, or a
`Debugger::reportForever` halt with its diagnostic format string and the
trace of calls issued before the halt (reportForever never returns, so no
state survives it). -/
inductive OpResult (σ : Type) (α : Type) where
  | ok : α → σ → List Event → OpResult σ α
  | fatal : String → List Event → OpResult σ α

/-- The trace of driver/hardware calls an operation issued, whether or not
it ended in the fatal path. -/
def OpResult.traceOf {σ α : Type} : OpResult σ α → List Event
  | .ok _ _ ev => ev
  | .fatal _ ev => ev

/-- Whether the operation ended in the irrecoverable reportForever halt. -/
def OpResult.isFatal {σ α : Type} : OpResult σ α → Bool
  | .ok _ _ _ => false
  | .fatal _ _ => true

/-- The facade state: the configuration captured by the constructor, the
vendor device structure `_dev`, and the owned result frame `_results`. -/
structure VL53L5cx where
  lpn_pin : Nat
  resolution : resolution_t
  target_order : target_order_t
  ranging_frequency : Nat
  dev : DevState
  results : VL53L5CX_ResultsData

/-- VL53L5cx::VL53L5cx (src lines 15-30): pure data capture; stores the
pin, writes the device address into the platform field of `_dev`, and
records resolution, target order and ranging frequency.  `dev0` and
`results0` stand for the indeterminate initial contents of the embedded
`_dev` and `_results` objects. -/
def VL53L5cx.construct (lpnPin deviceAddress : Nat) (resolution : resolution_t)
    (targetOrder : target_order_t) (rangingFrequency : Nat)
    (dev0 : DevState) (results0 : VL53L5CX_ResultsData) : VL53L5cx :=
  { lpn_pin := lpnPin
    resolution := resolution
    target_order := targetOrder
    ranging_frequency := rangingFrequency
    dev := { dev0 with address := deviceAddress }
    results := results0 }

/-- The vendor resolution code the facade passes to the driver for a
configured resolution (the ternary expression repeated at src lines 61-64
and 163-165). -/
def resCode (r : resolution_t) : Nat :=
  if r = resolution_t.RESOLUTION_4X4 then VL53L5CX_RESOLUTION_4X4
  else VL53L5CX_RESOLUTION_8X8

/-- The vendor target-order code the facade passes to the driver (src
lines 67-70). -/
def torderCode (t : target_order_t) : Nat :=
  if t = target_order_t.TARGET_ORDER_STRONGEST then VL53L5CX_TARGET_ORDER_STRONGEST
  else VL53L5CX_TARGET_ORDER_CLOSEST

/-- VL53L5cx::check_ranging_frequency (src lines 74-82).  The `resolution`
and `label` parameters are received but unused: the condition tests only
`_ranging_frequency` against `maxval`, exactly as the source does.
Returns the fatal diagnostic when the check fires, `none` otherwise. -/
def VL53L5cx.check_ranging_frequency (s : VL53L5cx) (resolution : resolution_t)
    (maxval : Nat) (label : String) : Option String :=
  if s.ranging_frequency < 1 ∨ s.ranging_frequency > maxval then
    some "Ranging frequency for %s resolution must be at least 1 and no more than %d"
  else
    none

/-- VL53L5cx::checkStatus (src lines 240-245): a nonzero driver status is
fatal with the given format string. -/
def VL53L5cx.checkStatus (error : Nat) (fmt : String) : Option String :=
  if error ≠ 0 then some fmt else none

/-- VL53L5cx::bozoFilter (src lines 233-238): a true condition is fatal
with the given message (the C bool argument is modelled as a decidable
proposition). -/
def VL53L5cx.bozoFilter (cond : Prop) [Decidable cond] (msg : String) : Option String :=
  if cond then some msg else none

/-- VL53L5cx::rangeFilter (src lines 247-252): a value outside
[minval, maxval] is fatal. -/
def VL53L5cx.rangeFilter (val minval maxval : Nat) (valname : String) : Option String :=
  if val < minval ∨ val > maxval then
    some "%s must be between %d and %d"
  else
    none

/-- VL53L5cx::init (src lines 38-72): both ranging-frequency checks (4X4
bound 60, then 8X8 bound 15) run unconditionally, then the sensor is reset
via the LPN pin, the liveness probe and driver init run (each fatal on
failure), and finally resolution and target order are pushed to the driver
(statuses of those two pushes are ignored by the source). -/
def VL53L5cx.init (d : Driver) (s : VL53L5cx) : OpResult VL53L5cx Unit :=
  match s.check_ranging_frequency resolution_t.RESOLUTION_4X4 60 "4X4" with
  | some msg => .fatal msg []
  | none =>
    match s.check_ranging_frequency resolution_t.RESOLUTION_8X8 15 "8X8" with
    | some msg => .fatal msg []
    | none =>
      let a := d.vl53l5cx_is_alive s.dev
      let ev1 : List Event := [Event.resetSensor s.lpn_pin, Event.drvIsAlive]
      if a.2.1 = 0 ∨ a.1 ≠ 0 then
        .fatal "VL53L5CX not detected at requested address" ev1
      else
        let b := d.vl53l5cx_init a.2.2
        let ev2 := ev1 ++ [Event.drvInit]
        if b.1 ≠ 0 then
          .fatal "VL53L5CX ULD Loading failed" ev2
        else
          let c := d.vl53l5cx_set_resolution (resCode s.resolution) b.2
          let e := d.vl53l5cx_set_target_order (torderCode s.target_order) c.2
          .ok () { s with dev := e.2 }
            (ev2 ++ [Event.drvSetResolution (resCode s.resolution),
                     Event.drvSetTargetOrder (torderCode s.target_order)])

/-- VL53L5cx::start_ranging (src lines 85-88): start ranging, fatal on a
nonzero status. -/
def VL53L5cx.start_ranging (d : Driver) (s : VL53L5cx) : OpResult VL53L5cx Unit :=
  let r := d.vl53l5cx_start_ranging s.dev
  match VL53L5cx.checkStatus r.1 "start error = 0x%02X" with
  | some msg => .fatal msg [Event.drvStartRanging]
  | none => .ok () { s with dev := r.2 } [Event.drvStartRanging]

/-- VL53L5cx::begin (src lines 32-36): init then start_ranging. -/
def VL53L5cx.begin (d : Driver) (s : VL53L5cx) : OpResult VL53L5cx Unit :=
  match VL53L5cx.init d s with
  | .fatal msg ev => .fatal msg ev
  | .ok _ s1 ev1 =>
    match VL53L5cx.start_ranging d s1 with
    | .fatal msg ev2 => .fatal msg (ev1 ++ ev2)
    | .ok _ s2 ev2 => .ok () s2 (ev1 ++ ev2)

/-- VL53L5cx::isReady (src lines 90-102): poll the driver's data-ready
flag (the call's status is ignored); when the flag is nonzero, pull one
full result frame into the owned `_results` buffer and return true,
otherwise return false and leave `_results` untouched. -/
def VL53L5cx.isReady (d : Driver) (s : VL53L5cx) : Bool × VL53L5cx × List Event :=
  let r := d.vl53l5cx_check_data_ready s.dev
  if r.2.1 ≠ 0 then
    let g := d.vl53l5cx_get_ranging_data r.2.2
    (true, { s with dev := g.2.2, results := g.2.1 },
      [Event.drvCheckDataReady, Event.drvGetRangingData])
  else
    (false, { s with dev := r.2.2 }, [Event.drvCheckDataReady])

/-- VL53L5cx::getStreamCount (src lines 104-107): reads the streamcount
field of the driver device structure `_dev` (not of `_results`). -/
def VL53L5cx.getStreamCount (s : VL53L5cx) : Nat :=
  s.dev.streamcount

/-- VL53L5cx::getTargetStatus (src lines 109-112).  `ntpz` stands for the
vendor build-time constant VL53L5CX_NB_TARGET_PER_ZONE (header not under
src/), passed as a parameter. -/
def VL53L5cx.getTargetStatus (ntpz : Nat) (s : VL53L5cx) (zone target : Nat) : Nat :=
  s.results.target_status (ntpz * zone + target)

/-- VL53L5cx::getDistance (src lines 114-117). -/
def VL53L5cx.getDistance (ntpz : Nat) (s : VL53L5cx) (zone target : Nat) : Nat :=
  s.results.distance_mm (ntpz * zone + target)

/-- VL53L5cx::getSignalPerSpad (src lines 119-122). -/
def VL53L5cx.getSignalPerSpad (ntpz : Nat) (s : VL53L5cx) (zone target : Nat) : Nat :=
  s.results.signal_per_spad (ntpz * zone + target)

/-- VL53L5cx::getRangeSigma (src lines 124-127). -/
def VL53L5cx.getRangeSigma (ntpz : Nat) (s : VL53L5cx) (zone target : Nat) : Nat :=
  s.results.range_sigma_mm (ntpz * zone + target)

/-- VL53L5cx::getNbTargetDetected (src lines 129-132). -/
def VL53L5cx.getNbTargetDetected (s : VL53L5cx) (zone : Nat) : Nat :=
  s.results.nb_target_detected zone

/-- VL53L5cx::getAmbientPerSpad (src lines 134-137). -/
def VL53L5cx.getAmbientPerSpad (s : VL53L5cx) (zone : Nat) : Nat :=
  s.results.ambient_per_spad zone

/-- VL53L5cx::getNbSpadsEnabled (src lines 139-142). -/
def VL53L5cx.getNbSpadsEnabled (s : VL53L5cx) (zone : Nat) : Nat :=
  s.results.nb_spads_enabled zone

/-- VL53L5cx::stop (src lines 144-147): stop ranging; the driver status is
discarded, so there is no fatal path. -/
def VL53L5cx.stop (d : Driver) (s : VL53L5cx) : OpResult VL53L5cx Unit :=
  let r := d.vl53l5cx_stop_ranging s.dev
  .ok () { s with dev := r.2 } [Event.drvStopRanging]

/-- VL53L5cx::getIntegrationTimeMsec (src lines 149-156): query the
driver, fatal on nonzero status, otherwise return the queried value. -/
def VL53L5cx.getIntegrationTimeMsec (d : Driver) (s : VL53L5cx) : OpResult VL53L5cx Nat :=
  let r := d.vl53l5cx_get_integration_time_ms s.dev
  match VL53L5cx.checkStatus r.1 "vl53l5cx_get_integration_time_ms failed, status %u\n" with
  | some msg => .fatal msg [Event.drvGetIntegrationTime]
  | none => .ok r.2.1 { s with dev := r.2.2 } [Event.drvGetIntegrationTime]

/-- uint16_t difference as the source computes distanceMax-distanceMin
(src line 176): operands are 16-bit, so the difference wraps modulo 2^16.
The source only evaluates it after the distanceMax < distanceMin check
passed, where it agrees with plain subtraction. -/
def u16sub (a b : Nat) : Nat := (a + 65536 - b) % 65536

/-- VL53L5cx::addMotionIndicator (src lines 158-182): the motion-indicator
init driver call is issued first (fatal on nonzero status); only then, and
only when both distance bounds are nonzero, the three bozoFilter
validations run, followed by the set-distance driver call (fatal on
nonzero status). -/
def VL53L5cx.addMotionIndicator (d : Driver) (s : VL53L5cx)
    (distanceMin distanceMax : Nat) : OpResult VL53L5cx Unit :=
  let m := d.vl53l5cx_motion_indicator_init (resCode s.resolution) s.dev
  let ev1 : List Event := [Event.drvMotionIndicatorInit (resCode s.resolution)]
  match VL53L5cx.checkStatus m.1 "Motion indicator init failed with status : %u" with
  | some msg => .fatal msg ev1
  | none =>
    if distanceMin > 0 ∧ distanceMax > 0 then
      match VL53L5cx.bozoFilter (distanceMin < 400)
          "Motion indicator minimum distance must be at least 400mm" with
      | some msg => .fatal msg ev1
      | none =>
        match VL53L5cx.bozoFilter (distanceMax < distanceMin)
            "Motion indicator maximum distance must be greater than minimum" with
        | some msg => .fatal msg ev1
        | none =>
          match VL53L5cx.bozoFilter (u16sub distanceMax distanceMin > 1500)
              "Motion indicator maximum distance can be no greater than 1500mm above minimum distance" with
          | some msg => .fatal msg ev1
          | none =>
            let p := d.vl53l5cx_motion_indicator_set_distance_motion
                m.2.1 distanceMin distanceMax m.2.2
            let ev2 := ev1 ++ [Event.drvMotionIndicatorSetDistance distanceMin distanceMax]
            match VL53L5cx.checkStatus p.1
                "Motion indicator set distance failed with status : %u\n" with
            | some msg => .fatal msg ev2
            | none => .ok () { s with dev := p.2 } ev2
    else
      .ok () { s with dev := m.2.2 } ev1

/-- VL53L5cx::calibrateXtalk (src lines 184-192): the three rangeFilter
validations run first (each fatal before any driver call), then the
calibration is delegated to the driver (fatal on nonzero status). -/
def VL53L5cx.calibrateXtalk (d : Driver) (s : VL53L5cx)
    (reflectancePercent samples distance : Nat) : OpResult VL53L5cx Unit :=
  match VL53L5cx.rangeFilter reflectancePercent 1 99 "Reflectance perecent" with
  | some msg => .fatal msg []
  | none =>
    match VL53L5cx.rangeFilter samples 1 16 "Number of samples" with
    | some msg => .fatal msg []
    | none =>
      match VL53L5cx.rangeFilter distance 600 3000 "Distance" with
      | some msg => .fatal msg []
      | none =>
        let r := d.vl53l5cx_calibrate_xtalk reflectancePercent samples distance s.dev
        let ev : List Event := [Event.drvCalibrateXtalk reflectancePercent samples distance]
        match VL53L5cx.checkStatus r.1 "vl53l5cx_calibrate_xtalk failed, status %u" with
        | some msg => .fatal msg ev
        | none => .ok () { s with dev := r.2 } ev

/-- The opaque cross-talk calibration blob (fixed-size byte buffer,
modelled as a list of byte values). -/
structure XtalkCalibrationData where
  data : List Nat

/-- VL53L5cx::getXtalkCalibrationData (src lines 194-197): copies the
driver's calibration blob into the caller's buffer (status ignored). -/
def VL53L5cx.getXtalkCalibrationData (d : Driver) (s : VL53L5cx)
    (data : XtalkCalibrationData) : VL53L5cx × XtalkCalibrationData × List Event :=
  let r := d.vl53l5cx_get_caldata_xtalk s.dev
  ({ s with dev := r.2.2 }, { data := r.2.1 }, [Event.drvGetCaldataXtalk])

/-- VL53L5cx::setXtalkCalibrationData (src lines 199-201): the body of the
source function is empty. -/
def VL53L5cx.setXtalkCalibrationData (d : Driver) (s : VL53L5cx)
    (data : XtalkCalibrationData) : VL53L5cx × XtalkCalibrationData × List Event :=
  (s, data, [])

/-- The autonomous facade state: the base facade state plus the
integration-time configuration field (src lines 203-216). -/
structure VL53L5cxAutonomous extends VL53L5cx where
  integration_time_msec : Nat

/-- VL53L5cxAutonomous::begin (src lines 218-231): the shared init step,
then ranging-mode selection (fatal on nonzero status), then the
integration-time push (status not checked), then start_ranging. -/
def VL53L5cxAutonomous.begin (d : Driver) (s : VL53L5cxAutonomous) :
    OpResult VL53L5cxAutonomous Unit :=
  match VL53L5cx.init d s.toVL53L5cx with
  | .fatal msg ev => .fatal msg ev
  | .ok _ s1 ev1 =>
    let r := d.vl53l5cx_set_ranging_mode VL53L5CX_RANGING_MODE_AUTONOMOUS s1.dev
    let ev2 := ev1 ++ [Event.drvSetRangingMode VL53L5CX_RANGING_MODE_AUTONOMOUS]
    match VL53L5cx.checkStatus r.1 "vl53l5cx_set_ranging_mode failed, status %u\n" with
    | some msg => .fatal msg ev2
    | none =>
      let t := d.vl53l5cx_set_integration_time_ms s.integration_time_msec r.2
      let ev3 := ev2 ++ [Event.drvSetIntegrationTime s.integration_time_msec]
      match VL53L5cx.start_ranging d { s1 with dev := t.2 } with
      | .fatal msg ev4 => .fatal msg (ev3 ++ ev4)
      | .ok _ s3 ev4 => .ok () { s with toVL53L5cx := s3 } (ev3 ++ ev4)

/-- A result frame with all fields zero, used as a concrete initial
buffer content. -/
def zeroResults : VL53L5CX_ResultsData :=
  { target_status := fun _ => 0
    distance_mm := fun _ => 0
    signal_per_spad := fun _ => 0
    range_sigma_mm := fun _ => 0
    nb_target_detected := fun _ => 0
    ambient_per_spad := fun _ => 0
    nb_spads_enabled := fun _ => 0 }

/-- A concrete initial device state. -/
def dev0 : DevState := { address := 41, streamcount := 0, internal := 0 }

/-- A concrete distinctive result frame, used to observe exact readback. -/
def frame7 : VL53L5CX_ResultsData :=
  { target_status := fun i => i + 7
    distance_mm := fun i => 2 * i + 30
    signal_per_spad := fun i => i + 100
    range_sigma_mm := fun i => i + 3
    nb_target_detected := fun i => i + 1
    ambient_per_spad := fun i => i + 50
    nb_spads_enabled := fun i => i + 60 }

/-- A concrete driver whose every call succeeds (status 0), reports the
device alive, reports no frame ready, and leaves the device state
unchanged. -/
def okDriver : Driver :=
  { vl53l5cx_is_alive := fun dev => (0, 1, dev)
    vl53l5cx_init := fun dev => (0, dev)
    vl53l5cx_set_resolution := fun _ dev => (0, dev)
    vl53l5cx_set_target_order := fun _ dev => (0, dev)
    vl53l5cx_start_ranging := fun dev => (0, dev)
    vl53l5cx_check_data_ready := fun dev => (0, 0, dev)
    vl53l5cx_get_ranging_data := fun dev => (0, zeroResults, dev)
    vl53l5cx_stop_ranging := fun dev => (0, dev)
    vl53l5cx_get_integration_time_ms := fun dev => (0, 5, dev)
    vl53l5cx_motion_indicator_init := fun _ dev => (0, 0, dev)
    vl53l5cx_motion_indicator_set_distance_motion := fun _ _ _ dev => (0, dev)
    vl53l5cx_calibrate_xtalk := fun _ _ _ dev => (0, dev)
    vl53l5cx_get_caldata_xtalk := fun dev => (0, [], dev)
    vl53l5cx_set_ranging_mode := fun _ dev => (0, dev)
    vl53l5cx_set_integration_time_ms := fun _ dev => (0, dev) }

/-- A concrete driver that reports a frame ready and delivers `frame7`. -/
def readyDriver : Driver :=
  { okDriver with
    vl53l5cx_check_data_ready := fun dev => (0, 1, dev)
    vl53l5cx_get_ranging_data := fun dev => (0, frame7, dev) }

/-- A concrete driver that reports no frame ready but increments the
device structure's streamcount during the data-ready poll. -/
def bumpDriver : Driver :=
  { okDriver with
    vl53l5cx_check_data_ready :=
      fun dev => (0, 0, { dev with streamcount := dev.streamcount + 1 }) }

/-- A concrete facade state: 4x4 grid, strongest-first, frequency 10. -/
def s4x4_10 : VL53L5cx :=
  VL53L5cx.construct 5 41 resolution_t.RESOLUTION_4X4
    target_order_t.TARGET_ORDER_STRONGEST 10 dev0 zeroResults

/-- A concrete facade state: 4x4 grid, frequency 60 (the 4x4 maximum). -/
def s4x4_60 : VL53L5cx :=
  VL53L5cx.construct 5 41 resolution_t.RESOLUTION_4X4
    target_order_t.TARGET_ORDER_STRONGEST 60 dev0 zeroResults

/-- A concrete facade state: 4x4 grid, frequency 0. -/
def s4x4_0 : VL53L5cx :=
  VL53L5cx.construct 5 41 resolution_t.RESOLUTION_4X4
    target_order_t.TARGET_ORDER_STRONGEST 0 dev0 zeroResults

/-- A concrete autonomous facade state with integration time 10 ms. -/
def sAuto10 : VL53L5cxAutonomous :=
  { s4x4_10 with integration_time_msec := 10 }

/-- Helper: start_ranging always issues exactly the start-ranging driver
call, whether it ends fatal or ok. -/
theorem start_ranging_trace (d : Driver) (s : VL53L5cx) :
    OpResult.traceOf (VL53L5cx.start_ranging d s) = [Event.drvStartRanging] := by
  simp only [VL53L5cx.start_ranging, VL53L5cx.checkStatus]
  by_cases h : (d.vl53l5cx_start_ranging s.dev).1 ≠ 0
  · simp [h, OpResult.traceOf]
  · simp [h, OpResult.traceOf]

/-- C1: counter to the claim, the ranging-frequency validation is NOT
resolution-specific — a small-grid (4x4) configuration with frequency
exactly 60 (the claimed small-grid maximum) takes the fatal path, with no
reset and no driver call issued: check_ranging_frequency ignores its
resolution argument, so init applies the 8x8 bound of 15 to every
configuration. -/
theorem c1_small_grid_freq60_fatal :
    VL53L5cx.init okDriver s4x4_60 =
      OpResult.fatal
        "Ranging frequency for %s resolution must be at least 1 and no more than %d"
        [] := by
  rfl

/-- C4: counter to the claim, the pair distanceMin = distanceMax = 400 is
NOT rejected by addMotionIndicator — the source checks
`distanceMax < distanceMin`, not `≤`, so the equal pair passes all three
filters and the degenerate distance window is pushed to the driver,
contradicting the code's own diagnostic ("maximum distance must be
greater than minimum"). -/
theorem c4_equal_bounds_accepted :
    VL53L5cx.addMotionIndicator okDriver s4x4_10 400 400 =
      OpResult.ok () s4x4_10
        [Event.drvMotionIndicatorInit VL53L5CX_RESOLUTION_4X4,
         Event.drvMotionIndicatorSetDistance 400 400] := by
  rfl

/-- C9: setXtalkCalibrationData performs no work: for every driver, facade
state and calibration buffer, it issues no driver call (empty trace) and
returns the facade state and the buffer unchanged. -/
theorem c9_setXtalkCalibrationData_noop (d : Driver) (s : VL53L5cx)
    (data : XtalkCalibrationData) :
    VL53L5cx.setXtalkCalibrationData d s data = (s, data, ([] : List Event)) :=
  rfl

/-- C8: Stop() and the autonomous integration-time push are silent: stop
always returns normally (never the fatal path) for every driver status,
stop's result is unchanged when the stop-ranging status is replaced by an
arbitrary function of the device state, and the autonomous begin's result
is unchanged when the set-integration-time status is replaced by an
arbitrary function — so neither status is reported to the caller in any
way. -/
theorem c8_silent_stop_and_integration_push (d : Driver) (s : VL53L5cx)
    (sa : VL53L5cxAutonomous) (f : Nat → DevState → Nat)
    (g : DevState → Nat) :
    VL53L5cx.stop d s =
      OpResult.ok () { s with dev := (d.vl53l5cx_stop_ranging s.dev).2 }
        [Event.drvStopRanging] ∧
    VL53L5cx.stop
      { d with vl53l5cx_stop_ranging :=
          fun dev => (g dev, (d.vl53l5cx_stop_ranging dev).2) } s =
      VL53L5cx.stop d s ∧
    VL53L5cxAutonomous.begin
      { d with vl53l5cx_set_integration_time_ms :=
          fun ms dev => (f ms dev, (d.vl53l5cx_set_integration_time_ms ms dev).2) } sa =
      VL53L5cxAutonomous.begin d sa := by
  refine ⟨rfl, rfl, rfl⟩

/-- C10: counter to the claim, GetStreamCount is not a function of the
owned result-frame storage: a poll during which the driver reports "not
ready" (so isReady returns false and the frame buffer is unchanged) can
still change GetStreamCount's value, because getStreamCount reads the
streamcount field of the driver device structure `_dev`, not of
`_results`. -/
theorem c10_streamcount_not_frame_function :
    (VL53L5cx.isReady bumpDriver s4x4_10).1 = false ∧
    ((VL53L5cx.isReady bumpDriver s4x4_10).2.1).results = s4x4_10.results ∧
    VL53L5cx.getStreamCount ((VL53L5cx.isReady bumpDriver s4x4_10).2.1) ≠
      VL53L5cx.getStreamCount s4x4_10 := by
  refine ⟨rfl, rfl, ?_⟩
  decide

/-- C10 amended: every accessor is a pure read of the facade state; the
seven frame accessors depend only on the owned result-frame storage, while
GetStreamCount depends only on the driver device structure (its
streamcount field), which driver calls outside a successful poll may
modify. -/
theorem c10_amended_accessor_dependencies (ntpz zone target : Nat)
    (s1 s2 : VL53L5cx) :
    (s1.results = s2.results →
      VL53L5cx.getTargetStatus ntpz s1 zone target
          = VL53L5cx.getTargetStatus ntpz s2 zone target ∧
      VL53L5cx.getDistance ntpz s1 zone target
          = VL53L5cx.getDistance ntpz s2 zone target ∧
      VL53L5cx.getSignalPerSpad ntpz s1 zone target
          = VL53L5cx.getSignalPerSpad ntpz s2 zone target ∧
      VL53L5cx.getRangeSigma ntpz s1 zone target
          = VL53L5cx.getRangeSigma ntpz s2 zone target ∧
      VL53L5cx.getNbTargetDetected s1 zone = VL53L5cx.getNbTargetDetected s2 zone ∧
      VL53L5cx.getAmbientPerSpad s1 zone = VL53L5cx.getAmbientPerSpad s2 zone ∧
      VL53L5cx.getNbSpadsEnabled s1 zone = VL53L5cx.getNbSpadsEnabled s2 zone) ∧
    (s1.dev = s2.dev →
      VL53L5cx.getStreamCount s1 = VL53L5cx.getStreamCount s2) := by
  constructor
  · intro h
    simp [VL53L5cx.getTargetStatus, VL53L5cx.getDistance, VL53L5cx.getSignalPerSpad,
      VL53L5cx.getRangeSigma, VL53L5cx.getNbTargetDetected, VL53L5cx.getAmbientPerSpad,
      VL53L5cx.getNbSpadsEnabled, h]
  · intro h
    simp [VL53L5cx.getStreamCount, h]

/-- Witness for the amended C10 theorem at two concrete states that share
their result frame and their device state. -/
theorem c10_amended_witness :
    (VL53L5cx.getTargetStatus 1 s4x4_10 2 0 = VL53L5cx.getTargetStatus 1 s4x4_60 2 0 ∧
     VL53L5cx.getDistance 1 s4x4_10 2 0 = VL53L5cx.getDistance 1 s4x4_60 2 0 ∧
     VL53L5cx.getSignalPerSpad 1 s4x4_10 2 0 = VL53L5cx.getSignalPerSpad 1 s4x4_60 2 0 ∧
     VL53L5cx.getRangeSigma 1 s4x4_10 2 0 = VL53L5cx.getRangeSigma 1 s4x4_60 2 0 ∧
     VL53L5cx.getNbTargetDetected s4x4_10 2 = VL53L5cx.getNbTargetDetected s4x4_60 2 ∧
     VL53L5cx.getAmbientPerSpad s4x4_10 2 = VL53L5cx.getAmbientPerSpad s4x4_60 2 ∧
     VL53L5cx.getNbSpadsEnabled s4x4_10 2 = VL53L5cx.getNbSpadsEnabled s4x4_60 2) ∧
    VL53L5cx.getStreamCount s4x4_10 = VL53L5cx.getStreamCount s4x4_60 :=
  ⟨(c10_amended_accessor_dependencies 1 2 0 s4x4_10 s4x4_60).1 rfl,
   (c10_amended_accessor_dependencies 1 2 0 s4x4_10 s4x4_60).2 rfl⟩

/-- C3: counter to the claim, AddMotionIndicator with an invalid distance
window (both bounds nonzero, minimum below 400mm) does issue a driver call
before taking the fatal path: the motion-indicator-init driver call
appears in the trace of the fatal outcome. -/
theorem c3_motion_driver_call_before_validation :
    OpResult.isFatal (VL53L5cx.addMotionIndicator okDriver s4x4_10 100 200) = true ∧
    OpResult.traceOf (VL53L5cx.addMotionIndicator okDriver s4x4_10 100 200) =
      [Event.drvMotionIndicatorInit VL53L5CX_RESOLUTION_4X4] :=
  ⟨rfl, rfl⟩

/-- C3 amended: Setup's ranging-frequency check and CalibrateXtalk's range
checks run before any driver or hardware call (their fatal outcomes carry
an empty call trace); AddMotionIndicator, by contrast, issues the
motion-indicator-init driver call first and validates the distance window
only afterwards — an invalid window is still fatal before the set-distance
driver call, so its fatal trace is exactly the init call. -/
theorem c3_amended_validation_order (d : Driver) (s : VL53L5cx)
    (r n dist dmin dmax : Nat) :
    ((s.ranging_frequency < 1 ∨ s.ranging_frequency > 60 ∨ s.ranging_frequency > 15) →
      OpResult.isFatal (VL53L5cx.init d s) = true ∧
      OpResult.traceOf (VL53L5cx.init d s) = []) ∧
    ((r < 1 ∨ r > 99 ∨ n < 1 ∨ n > 16 ∨ dist < 600 ∨ dist > 3000) →
      OpResult.isFatal (VL53L5cx.calibrateXtalk d s r n dist) = true ∧
      OpResult.traceOf (VL53L5cx.calibrateXtalk d s r n dist) = []) ∧
    (0 < dmin → 0 < dmax →
      (dmin < 400 ∨ dmax < dmin ∨ u16sub dmax dmin > 1500) →
      OpResult.isFatal (VL53L5cx.addMotionIndicator d s dmin dmax) = true ∧
      OpResult.traceOf (VL53L5cx.addMotionIndicator d s dmin dmax) =
        [Event.drvMotionIndicatorInit (resCode s.resolution)]) := by
  refine ⟨?_, ?_, ?_⟩
  · intro h
    simp only [VL53L5cx.init, VL53L5cx.check_ranging_frequency]
    by_cases h1 : s.ranging_frequency < 1 ∨ s.ranging_frequency > 60
    · rw [if_pos h1]
      exact ⟨rfl, rfl⟩
    · have h2 : s.ranging_frequency < 1 ∨ s.ranging_frequency > 15 := by
        rcases h with h | h | h
        · exact Or.inl h
        · exact absurd (Or.inr h) h1
        · exact Or.inr h
      rw [if_neg h1, if_pos h2]
      exact ⟨rfl, rfl⟩
  · intro h
    simp only [VL53L5cx.calibrateXtalk, VL53L5cx.rangeFilter]
    by_cases h1 : r < 1 ∨ r > 99
    · rw [if_pos h1]
      exact ⟨rfl, rfl⟩
    · by_cases h2 : n < 1 ∨ n > 16
      · rw [if_neg h1, if_pos h2]
        exact ⟨rfl, rfl⟩
      · have h3 : dist < 600 ∨ dist > 3000 := by
          rcases h with h | h | h | h | h | h
          · exact absurd (Or.inl h) h1
          · exact absurd (Or.inr h) h1
          · exact absurd (Or.inl h) h2
          · exact absurd (Or.inr h) h2
          · exact Or.inl h
          · exact Or.inr h
        rw [if_neg h1, if_neg h2, if_pos h3]
        exact ⟨rfl, rfl⟩
  · intro hmin hmax h
    simp only [VL53L5cx.addMotionIndicator, VL53L5cx.checkStatus, VL53L5cx.bozoFilter]
    by_cases h0 : (d.vl53l5cx_motion_indicator_init (resCode s.resolution) s.dev).1 = 0
    · rw [if_neg (not_not_intro h0), if_pos (⟨hmin, hmax⟩ : dmin > 0 ∧ dmax > 0)]
      by_cases h1 : dmin < 400
      · rw [if_pos h1]
        exact ⟨rfl, rfl⟩
      · rw [if_neg h1]
        by_cases h2 : dmax < dmin
        · rw [if_pos h2]
          exact ⟨rfl, rfl⟩
        · have h3 : u16sub dmax dmin > 1500 := by
            rcases h with h | h | h
            · exact absurd h h1
            · exact absurd h h2
            · exact h
          rw [if_neg h2, if_pos h3]
          exact ⟨rfl, rfl⟩
    · rw [if_pos h0]
      exact ⟨rfl, rfl⟩

/-- Witness for the amended C3 theorem: frequency 0 is fatal for Setup
with an empty trace, reflectance 0 is fatal for CalibrateXtalk with an
empty trace, and the window (100, 200) is fatal for AddMotionIndicator
with exactly the motion-indicator-init call in the trace. -/
theorem c3_amended_witness :
    (OpResult.isFatal (VL53L5cx.init okDriver s4x4_0) = true ∧
     OpResult.traceOf (VL53L5cx.init okDriver s4x4_0) = []) ∧
    (OpResult.isFatal (VL53L5cx.calibrateXtalk okDriver s4x4_0 0 4 700) = true ∧
     OpResult.traceOf (VL53L5cx.calibrateXtalk okDriver s4x4_0 0 4 700) = []) ∧
    (OpResult.isFatal (VL53L5cx.addMotionIndicator okDriver s4x4_0 100 200) = true ∧
     OpResult.traceOf (VL53L5cx.addMotionIndicator okDriver s4x4_0 100 200) =
       [Event.drvMotionIndicatorInit (resCode s4x4_0.resolution)]) :=
  ⟨(c3_amended_validation_order okDriver s4x4_0 0 4 700 100 200).1 (by decide),
   (c3_amended_validation_order okDriver s4x4_0 0 4 700 100 200).2.1 (by decide),
   (c3_amended_validation_order okDriver s4x4_0 0 4 700 100 200).2.2
     (by decide) (by decide) (by decide)⟩

/-- C6: a poll for which the driver reports no new frame returns false and
leaves the owned frame buffer completely unchanged (and issues only the
data-ready check); a poll for which the driver reports a frame returns
true and overwrites the buffer wholesale with the one full result frame
the driver delivers. -/
theorem c6_isReady_frame_effect (d : Driver) (s : VL53L5cx) :
    ((d.vl53l5cx_check_data_ready s.dev).2.1 = 0 →
      (VL53L5cx.isReady d s).1 = false ∧
      ((VL53L5cx.isReady d s).2.1).results = s.results ∧
      (VL53L5cx.isReady d s).2.2 = [Event.drvCheckDataReady]) ∧
    ((d.vl53l5cx_check_data_ready s.dev).2.1 ≠ 0 →
      (VL53L5cx.isReady d s).1 = true ∧
      ((VL53L5cx.isReady d s).2.1).results =
        (d.vl53l5cx_get_ranging_data (d.vl53l5cx_check_data_ready s.dev).2.2).2.1) := by
  constructor
  · intro h
    simp [VL53L5cx.isReady, h]
  · intro h
    simp [VL53L5cx.isReady, h]

/-- Witness for C6: a not-ready driver leaves the buffer untouched and a
ready driver overwrites it with the delivered frame. -/
theorem c6_witness :
    ((VL53L5cx.isReady okDriver s4x4_10).1 = false ∧
     ((VL53L5cx.isReady okDriver s4x4_10).2.1).results = s4x4_10.results ∧
     (VL53L5cx.isReady okDriver s4x4_10).2.2 = [Event.drvCheckDataReady]) ∧
    ((VL53L5cx.isReady readyDriver s4x4_10).1 = true ∧
     ((VL53L5cx.isReady readyDriver s4x4_10).2.1).results =
       (readyDriver.vl53l5cx_get_ranging_data
         (readyDriver.vl53l5cx_check_data_ready s4x4_10.dev).2.2).2.1) :=
  ⟨(c6_isReady_frame_effect okDriver s4x4_10).1 rfl,
   (c6_isReady_frame_effect readyDriver s4x4_10).2 (by decide)⟩

/-- C2: for every zone/target index, each of the seven frame accessors
returns exactly the value stored at the corresponding position of the
owned frame buffer by the last successful poll: after a poll in which the
driver reports a frame (isReady returns true), every accessor reads
exactly the field of the one full frame the driver delivered, unaltered;
after a poll in which the driver reports no frame (isReady returns
false), every accessor returns exactly what it returned before the
poll. -/
theorem c2_accessors_exact_readback (d : Driver) (s : VL53L5cx)
    (ntpz zone target : Nat) :
    ((d.vl53l5cx_check_data_ready s.dev).2.1 ≠ 0 →
      (VL53L5cx.isReady d s).1 = true ∧
      VL53L5cx.getTargetStatus ntpz ((VL53L5cx.isReady d s).2.1) zone target =
        ((d.vl53l5cx_get_ranging_data
            (d.vl53l5cx_check_data_ready s.dev).2.2).2.1).target_status
          (ntpz * zone + target) ∧
      VL53L5cx.getDistance ntpz ((VL53L5cx.isReady d s).2.1) zone target =
        ((d.vl53l5cx_get_ranging_data
            (d.vl53l5cx_check_data_ready s.dev).2.2).2.1).distance_mm
          (ntpz * zone + target) ∧
      VL53L5cx.getSignalPerSpad ntpz ((VL53L5cx.isReady d s).2.1) zone target =
        ((d.vl53l5cx_get_ranging_data
            (d.vl53l5cx_check_data_ready s.dev).2.2).2.1).signal_per_spad
          (ntpz * zone + target) ∧
      VL53L5cx.getRangeSigma ntpz ((VL53L5cx.isReady d s).2.1) zone target =
        ((d.vl53l5cx_get_ranging_data
            (d.vl53l5cx_check_data_ready s.dev).2.2).2.1).range_sigma_mm
          (ntpz * zone + target) ∧
      VL53L5cx.getNbTargetDetected ((VL53L5cx.isReady d s).2.1) zone =
        ((d.vl53l5cx_get_ranging_data
            (d.vl53l5cx_check_data_ready s.dev).2.2).2.1).nb_target_detected zone ∧
      VL53L5cx.getAmbientPerSpad ((VL53L5cx.isReady d s).2.1) zone =
        ((d.vl53l5cx_get_ranging_data
            (d.vl53l5cx_check_data_ready s.dev).2.2).2.1).ambient_per_spad zone ∧
      VL53L5cx.getNbSpadsEnabled ((VL53L5cx.isReady d s).2.1) zone =
        ((d.vl53l5cx_get_ranging_data
            (d.vl53l5cx_check_data_ready s.dev).2.2).2.1).nb_spads_enabled zone) ∧
    ((d.vl53l5cx_check_data_ready s.dev).2.1 = 0 →
      (VL53L5cx.isReady d s).1 = false ∧
      VL53L5cx.getTargetStatus ntpz ((VL53L5cx.isReady d s).2.1) zone target =
        VL53L5cx.getTargetStatus ntpz s zone target ∧
      VL53L5cx.getDistance ntpz ((VL53L5cx.isReady d s).2.1) zone target =
        VL53L5cx.getDistance ntpz s zone target ∧
      VL53L5cx.getSignalPerSpad ntpz ((VL53L5cx.isReady d s).2.1) zone target =
        VL53L5cx.getSignalPerSpad ntpz s zone target ∧
      VL53L5cx.getRangeSigma ntpz ((VL53L5cx.isReady d s).2.1) zone target =
        VL53L5cx.getRangeSigma ntpz s zone target ∧
      VL53L5cx.getNbTargetDetected ((VL53L5cx.isReady d s).2.1) zone =
        VL53L5cx.getNbTargetDetected s zone ∧
      VL53L5cx.getAmbientPerSpad ((VL53L5cx.isReady d s).2.1) zone =
        VL53L5cx.getAmbientPerSpad s zone ∧
      VL53L5cx.getNbSpadsEnabled ((VL53L5cx.isReady d s).2.1) zone =
        VL53L5cx.getNbSpadsEnabled s zone) := by
  constructor
  · intro h
    simp [VL53L5cx.isReady, VL53L5cx.getTargetStatus, VL53L5cx.getDistance,
      VL53L5cx.getSignalPerSpad, VL53L5cx.getRangeSigma, VL53L5cx.getNbTargetDetected,
      VL53L5cx.getAmbientPerSpad, VL53L5cx.getNbSpadsEnabled, h]
  · intro h
    simp [VL53L5cx.isReady, VL53L5cx.getTargetStatus, VL53L5cx.getDistance,
      VL53L5cx.getSignalPerSpad, VL53L5cx.getRangeSigma, VL53L5cx.getNbTargetDetected,
      VL53L5cx.getAmbientPerSpad, VL53L5cx.getNbSpadsEnabled, h]

/-- Witness for C2: a ready poll delivering `frame7` makes the accessors
read that frame exactly; a not-ready poll leaves every accessor value as
it was. -/
theorem c2_witness :
    ((VL53L5cx.isReady readyDriver s4x4_10).1 = true ∧
     VL53L5cx.getTargetStatus 1 ((VL53L5cx.isReady readyDriver s4x4_10).2.1) 2 0 =
       ((readyDriver.vl53l5cx_get_ranging_data
           (readyDriver.vl53l5cx_check_data_ready s4x4_10.dev).2.2).2.1).target_status
         (1 * 2 + 0) ∧
     VL53L5cx.getDistance 1 ((VL53L5cx.isReady readyDriver s4x4_10).2.1) 2 0 =
       ((readyDriver.vl53l5cx_get_ranging_data
           (readyDriver.vl53l5cx_check_data_ready s4x4_10.dev).2.2).2.1).distance_mm
         (1 * 2 + 0) ∧
     VL53L5cx.getSignalPerSpad 1 ((VL53L5cx.isReady readyDriver s4x4_10).2.1) 2 0 =
       ((readyDriver.vl53l5cx_get_ranging_data
           (readyDriver.vl53l5cx_check_data_ready s4x4_10.dev).2.2).2.1).signal_per_spad
         (1 * 2 + 0) ∧
     VL53L5cx.getRangeSigma 1 ((VL53L5cx.isReady readyDriver s4x4_10).2.1) 2 0 =
       ((readyDriver.vl53l5cx_get_ranging_data
           (readyDriver.vl53l5cx_check_data_ready s4x4_10.dev).2.2).2.1).range_sigma_mm
         (1 * 2 + 0) ∧
     VL53L5cx.getNbTargetDetected ((VL53L5cx.isReady readyDriver s4x4_10).2.1) 2 =
       ((readyDriver.vl53l5cx_get_ranging_data
           (readyDriver.vl53l5cx_check_data_ready s4x4_10.dev).2.2).2.1).nb_target_detected 2 ∧
     VL53L5cx.getAmbientPerSpad ((VL53L5cx.isReady readyDriver s4x4_10).2.1) 2 =
       ((readyDriver.vl53l5cx_get_ranging_data
           (readyDriver.vl53l5cx_check_data_ready s4x4_10.dev).2.2).2.1).ambient_per_spad 2 ∧
     VL53L5cx.getNbSpadsEnabled ((VL53L5cx.isReady readyDriver s4x4_10).2.1) 2 =
       ((readyDriver.vl53l5cx_get_ranging_data
           (readyDriver.vl53l5cx_check_data_ready s4x4_10.dev).2.2).2.1).nb_spads_enabled 2) ∧
    ((VL53L5cx.isReady okDriver s4x4_10).1 = false ∧
     VL53L5cx.getTargetStatus 1 ((VL53L5cx.isReady okDriver s4x4_10).2.1) 2 0 =
       VL53L5cx.getTargetStatus 1 s4x4_10 2 0 ∧
     VL53L5cx.getDistance 1 ((VL53L5cx.isReady okDriver s4x4_10).2.1) 2 0 =
       VL53L5cx.getDistance 1 s4x4_10 2 0 ∧
     VL53L5cx.getSignalPerSpad 1 ((VL53L5cx.isReady okDriver s4x4_10).2.1) 2 0 =
       VL53L5cx.getSignalPerSpad 1 s4x4_10 2 0 ∧
     VL53L5cx.getRangeSigma 1 ((VL53L5cx.isReady okDriver s4x4_10).2.1) 2 0 =
       VL53L5cx.getRangeSigma 1 s4x4_10 2 0 ∧
     VL53L5cx.getNbTargetDetected ((VL53L5cx.isReady okDriver s4x4_10).2.1) 2 =
       VL53L5cx.getNbTargetDetected s4x4_10 2 ∧
     VL53L5cx.getAmbientPerSpad ((VL53L5cx.isReady okDriver s4x4_10).2.1) 2 =
       VL53L5cx.getAmbientPerSpad s4x4_10 2 ∧
     VL53L5cx.getNbSpadsEnabled ((VL53L5cx.isReady okDriver s4x4_10).2.1) 2 =
       VL53L5cx.getNbSpadsEnabled s4x4_10 2) :=
  ⟨(c2_accessors_exact_readback readyDriver s4x4_10 1 2 0).1 (by decide),
   (c2_accessors_exact_readback okDriver s4x4_10 1 2 0).2 rfl⟩

/-- Helper: an out-of-range argument makes calibrateXtalk fatal before any
driver call (empty trace). -/
theorem calibrateXtalk_invalid_shape (d : Driver) (s : VL53L5cx) (r n dist : Nat)
    (h : r < 1 ∨ r > 99 ∨ n < 1 ∨ n > 16 ∨ dist < 600 ∨ dist > 3000) :
    OpResult.isFatal (VL53L5cx.calibrateXtalk d s r n dist) = true ∧
    OpResult.traceOf (VL53L5cx.calibrateXtalk d s r n dist) = [] := by
  simp only [VL53L5cx.calibrateXtalk, VL53L5cx.rangeFilter]
  by_cases h1 : r < 1 ∨ r > 99
  · rw [if_pos h1]
    exact ⟨rfl, rfl⟩
  · by_cases h2 : n < 1 ∨ n > 16
    · rw [if_neg h1, if_pos h2]
      exact ⟨rfl, rfl⟩
    · have h3 : dist < 600 ∨ dist > 3000 := by
        rcases h with h | h | h | h | h | h
        · exact absurd (Or.inl h) h1
        · exact absurd (Or.inr h) h1
        · exact absurd (Or.inl h) h2
        · exact absurd (Or.inr h) h2
        · exact Or.inl h
        · exact Or.inr h
      rw [if_neg h1, if_neg h2, if_pos h3]
      exact ⟨rfl, rfl⟩

/-- Helper: with all three arguments in range, calibrateXtalk delegates to
the driver (the calibrate-xtalk call is its whole trace) and returns
normally when the driver status is zero. -/
theorem calibrateXtalk_valid_shape (d : Driver) (s : VL53L5cx) (r n dist : Nat)
    (h1 : ¬(r < 1 ∨ r > 99)) (h2 : ¬(n < 1 ∨ n > 16))
    (h3 : ¬(dist < 600 ∨ dist > 3000)) :
    OpResult.traceOf (VL53L5cx.calibrateXtalk d s r n dist) =
      [Event.drvCalibrateXtalk r n dist] ∧
    ((d.vl53l5cx_calibrate_xtalk r n dist s.dev).1 = 0 →
      VL53L5cx.calibrateXtalk d s r n dist =
        OpResult.ok () { s with dev := (d.vl53l5cx_calibrate_xtalk r n dist s.dev).2 }
          [Event.drvCalibrateXtalk r n dist]) := by
  simp only [VL53L5cx.calibrateXtalk, VL53L5cx.rangeFilter, VL53L5cx.checkStatus]
  rw [if_neg h1, if_neg h2, if_neg h3]
  constructor
  · by_cases hq : (d.vl53l5cx_calibrate_xtalk r n dist s.dev).1 ≠ 0
    · rw [if_pos hq]
      rfl
    · rw [if_neg hq]
      rfl
  · intro hst
    rw [if_neg (not_not_intro hst)]

/-- C5: CalibrateXtalk takes the local-validation fatal path (fatal with
no driver call issued) exactly when reflectancePercent lies outside
[1, 99], or samples outside [1, 16], or distance outside [600, 3000]; when
all three are in range, calibration is delegated to the driver (the
calibrate-xtalk driver call is issued) and the operation completes
normally when the driver reports success. -/
theorem c5_calibrateXtalk_validation (d : Driver) (s : VL53L5cx) (r n dist : Nat) :
    ((OpResult.isFatal (VL53L5cx.calibrateXtalk d s r n dist) = true ∧
      OpResult.traceOf (VL53L5cx.calibrateXtalk d s r n dist) = []) ↔
      (r < 1 ∨ r > 99 ∨ n < 1 ∨ n > 16 ∨ dist < 600 ∨ dist > 3000)) ∧
    (¬(r < 1 ∨ r > 99 ∨ n < 1 ∨ n > 16 ∨ dist < 600 ∨ dist > 3000) →
      OpResult.traceOf (VL53L5cx.calibrateXtalk d s r n dist) =
        [Event.drvCalibrateXtalk r n dist] ∧
      ((d.vl53l5cx_calibrate_xtalk r n dist s.dev).1 = 0 →
        VL53L5cx.calibrateXtalk d s r n dist =
          OpResult.ok () { s with dev := (d.vl53l5cx_calibrate_xtalk r n dist s.dev).2 }
            [Event.drvCalibrateXtalk r n dist])) := by
  have split3 : ∀ hv : ¬(r < 1 ∨ r > 99 ∨ n < 1 ∨ n > 16 ∨ dist < 600 ∨ dist > 3000),
      ¬(r < 1 ∨ r > 99) ∧ ¬(n < 1 ∨ n > 16) ∧ ¬(dist < 600 ∨ dist > 3000) := by
    intro hv
    refine ⟨fun hh => hv ?_, fun hh => hv ?_, fun hh => hv ?_⟩
    · exact hh.elim Or.inl (fun b => Or.inr (Or.inl b))
    · exact hh.elim (fun a => Or.inr (Or.inr (Or.inl a)))
        (fun b => Or.inr (Or.inr (Or.inr (Or.inl b))))
    · exact hh.elim (fun a => Or.inr (Or.inr (Or.inr (Or.inr (Or.inl a)))))
        (fun b => Or.inr (Or.inr (Or.inr (Or.inr (Or.inr b)))))
  constructor
  · constructor
    · rintro ⟨hf, ht⟩
      by_contra hv
      obtain ⟨h1, h2, h3⟩ := split3 hv
      have hw := (calibrateXtalk_valid_shape d s r n dist h1 h2 h3).1
      rw [ht] at hw
      simp at hw
    · intro h
      exact calibrateXtalk_invalid_shape d s r n dist h
  · intro hv
    obtain ⟨h1, h2, h3⟩ := split3 hv
    exact calibrateXtalk_valid_shape d s r n dist h1 h2 h3

/-- Witness for C5: reflectance 0 is rejected before any driver call, and
the boundary triple (1, 1, 600) is accepted and delegated to the
driver. -/
theorem c5_witness :
    (OpResult.isFatal (VL53L5cx.calibrateXtalk okDriver s4x4_10 0 4 700) = true ∧
     OpResult.traceOf (VL53L5cx.calibrateXtalk okDriver s4x4_10 0 4 700) = []) ∧
    OpResult.traceOf (VL53L5cx.calibrateXtalk okDriver s4x4_10 1 1 600) =
      [Event.drvCalibrateXtalk 1 1 600] ∧
    VL53L5cx.calibrateXtalk okDriver s4x4_10 1 1 600 =
      OpResult.ok ()
        { s4x4_10 with dev := (okDriver.vl53l5cx_calibrate_xtalk 1 1 600 s4x4_10.dev).2 }
        [Event.drvCalibrateXtalk 1 1 600] :=
  ⟨(c5_calibrateXtalk_validation okDriver s4x4_10 0 4 700).1.mpr (by decide),
   ((c5_calibrateXtalk_validation okDriver s4x4_10 1 1 600).2 (by decide)).1,
   ((c5_calibrateXtalk_validation okDriver s4x4_10 1 1 600).2 (by decide)).2 (by decide)⟩

/-- C7: the autonomous Setup executes exactly the claimed sequence: the
shared init step first (an init failure is the whole outcome, nothing else
runs); on init success, the autonomous ranging-mode selection (fatal on a
nonzero driver status, with nothing issued after it); on mode-selection
success, the integration-time push and only then the start-ranging
command, in that order. -/
theorem c7_autonomous_begin_sequence (d : Driver) (s : VL53L5cxAutonomous) :
    (∀ msg ev, VL53L5cx.init d s.toVL53L5cx = OpResult.fatal msg ev →
      VL53L5cxAutonomous.begin d s = OpResult.fatal msg ev) ∧
    (∀ u s1 ev1, VL53L5cx.init d s.toVL53L5cx = OpResult.ok u s1 ev1 →
      ((d.vl53l5cx_set_ranging_mode VL53L5CX_RANGING_MODE_AUTONOMOUS s1.dev).1 ≠ 0 →
        VL53L5cxAutonomous.begin d s =
          OpResult.fatal "vl53l5cx_set_ranging_mode failed, status %u\n"
            (ev1 ++ [Event.drvSetRangingMode VL53L5CX_RANGING_MODE_AUTONOMOUS])) ∧
      ((d.vl53l5cx_set_ranging_mode VL53L5CX_RANGING_MODE_AUTONOMOUS s1.dev).1 = 0 →
        OpResult.traceOf (VL53L5cxAutonomous.begin d s) =
          ev1 ++ [Event.drvSetRangingMode VL53L5CX_RANGING_MODE_AUTONOMOUS,
                  Event.drvSetIntegrationTime s.integration_time_msec,
                  Event.drvStartRanging])) := by
  constructor
  · intro msg ev h
    simp [VL53L5cxAutonomous.begin, h]
  · intro u s1 ev1 h
    constructor
    · intro hst
      simp [VL53L5cxAutonomous.begin, h, VL53L5cx.checkStatus, hst]
    · intro hst
      simp only [VL53L5cxAutonomous.begin, h, VL53L5cx.checkStatus,
        VL53L5cx.start_ranging, hst]
      by_cases hq : (d.vl53l5cx_start_ranging
          (d.vl53l5cx_set_integration_time_ms s.integration_time_msec
            (d.vl53l5cx_set_ranging_mode VL53L5CX_RANGING_MODE_AUTONOMOUS s1.dev).2).2).1 = 0
      · simp [hq, OpResult.traceOf]
      · simp [hq, OpResult.traceOf]

/-- Witness for C7: with a fully succeeding driver, the autonomous Setup's
call trace is the shared init sequence followed by mode selection, the
integration-time push, and finally start-ranging. -/
theorem c7_witness :
    OpResult.traceOf (VL53L5cxAutonomous.begin okDriver sAuto10) =
      [Event.resetSensor 5, Event.drvIsAlive, Event.drvInit,
       Event.drvSetResolution VL53L5CX_RESOLUTION_4X4,
       Event.drvSetTargetOrder VL53L5CX_TARGET_ORDER_STRONGEST] ++
      [Event.drvSetRangingMode VL53L5CX_RANGING_MODE_AUTONOMOUS,
       Event.drvSetIntegrationTime sAuto10.integration_time_msec,
       Event.drvStartRanging] :=
  ((c7_autonomous_begin_sequence okDriver sAuto10).2 () s4x4_10
    [Event.resetSensor 5, Event.drvIsAlive, Event.drvInit,
     Event.drvSetResolution VL53L5CX_RESOLUTION_4X4,
     Event.drvSetTargetOrder VL53L5CX_TARGET_ORDER_STRONGEST] rfl).2 rfl
